import Mathlib

/-!
Verification of the qod script (src/qod/qod.py).

The script performs one HTTP GET to a fixed URL, parses the response body
as JSON, and branches on the status code: on 200 it prints the first quote
of contents.quotes in green, otherwise it prints error.message in red.
We embed the script as a pure function from the network outcome (and the
ignored command-line arguments and environment) to a trace of observable
events plus an optional unhandled Python exception.
-/

/-- JSON values, as produced by parsing a response body. -/
inductive Json where
  | null : Json
  | bool (b : Bool) : Json
  | num (n : Int) : Json
  | str (s : String) : Json
  | arr (xs : List Json) : Json
  | obj (kvs : List (String × Json)) : Json
deriving Repr

/-- Unhandled Python exceptions the script can raise. -/
inductive PyErr where
  | jsonDecodeError : PyErr
  | keyError (k : String) : PyErr
  | keyErrorNat (n : Nat) : PyErr
  | typeError : PyErr
  | indexError : PyErr
  | networkError : PyErr
deriving Repr, DecidableEq

/-- First-match association lookup on the key-value list of a JSON object. -/
def lookupKey : List (String × Json) → String → Option Json
  | [], _ => none
  | (k, v) :: rest, key => if k = key then some v else lookupKey rest key

/-- Python subscripting with a string key, as in data["contents"]:
on a dict it is a key lookup raising KeyError when absent; on any other
value it raises TypeError. -/
def Json.getKey : Json → String → Except PyErr Json
  | .obj kvs, k =>
    match lookupKey kvs k with
    | some v => .ok v
    | none => .error (.keyError k)
  | _, _ => .error .typeError

/-- Python subscripting with the integer 0, as in quotes[0]: on a list it
is indexing, raising IndexError when empty; on a dict it is a lookup with
the integer key 0, raising KeyError since JSON object keys are strings;
on a string it yields the one-character prefix, raising IndexError when
empty; other values raise TypeError. -/
def Json.get0 : Json → Except PyErr Json
  | .arr [] => .error .indexError
  | .arr (x :: _) => .ok x
  | .obj _ => .error (.keyErrorNat 0)
  | .str s =>
    match s.toList with
    | [] => .error .indexError
    | c :: _ => .ok (.str (String.mk [c]))
  | _ => .error .typeError

/-- Using a JSON value where Python string concatenation requires str:
non-strings raise TypeError. -/
def Json.asStr : Json → Except PyErr String
  | .str s => .ok s
  | _ => .error .typeError

/-- ANSI escape prefix for green foreground, from the pyfancy dependency. -/
def greenCode : String := "\x1b[32m"

/-- ANSI escape prefix for red foreground, from the pyfancy dependency. -/
def redCode : String := "\x1b[31m"

/-- ANSI reset suffix appended by pyfancy get. -/
def resetCode : String := "\x1b[0m"

/-- Modelled from the pyfancy dependency: green text with a reset suffix. -/
def pyfancyGreen (s : String) : String := greenCode ++ s ++ resetCode

/-- Modelled from the pyfancy dependency: red text with a reset suffix. -/
def pyfancyRed (s : String) : String := redCode ++ s ++ resetCode

/-- The fixed literal URL of the script. -/
def url : String := "https://quotes.rest/qod"

/-- An HTTP response as the script observes it: the status code, the JSON
parse of the body (none when the body is not valid JSON, in which case
res.json() raises), and the headers, which the script never reads. -/
structure Response where
  status_code : Nat
  body : Option Json
  headers : List (String × String)
deriving Repr

/-- Outcome of the single requests.get call: a response, or a transport
failure (connection refused, timeout, DNS failure) raising a network
exception. -/
inductive NetOutcome where
  | ok (res : Response) : NetOutcome
  | fail : NetOutcome
deriving Repr

/-- Observable events of a run: the outbound GET and each print call
(print writes its argument followed by a newline to stdout). -/
inductive Event where
  | httpGet (u : String) : Event
  | printLine (s : String) : Event
deriving Repr, DecidableEq

/-- The trace of a run: events in order, and the unhandled exception when
the script crashed (none means it ran to completion, exiting 0). -/
structure Outcome where
  events : List Event
  crash : Option PyErr
deriving Repr, DecidableEq

/-- The success branch, lines 10-13 of qod.py: quote and author are each
read by the chain data["contents"]["quotes"][0][field]; the first failing
access raises, quote before author; then quote + " - " + author demands
both to be strings, quote checked first; the result is wrapped green. -/
def successLine (data : Json) : Except PyErr String :=
  (((data.getKey "contents").bind (fun c => c.getKey "quotes")).bind Json.get0).bind
    fun q0 =>
      (q0.getKey "quote").bind fun qv =>
        (q0.getKey "author").bind fun av =>
          (qv.asStr).bind fun q =>
            (av.asStr).bind fun a =>
              .ok (pyfancyGreen (q ++ " - " ++ a))

/-- The error branch, line 15 of qod.py: data["error"]["message"], wrapped
red; the message must be a string for pyfancy concatenation. -/
def errorLine (data : Json) : Except PyErr String :=
  ((data.getKey "error").bind (fun e => e.getKey "message")).bind
    fun mv => (mv.asStr).bind fun m => .ok (pyfancyRed m)

/-- Lines 9-15 of qod.py after the request: res.json() first (raising on
invalid JSON regardless of status), then the branch on status_code == 200. -/
def runBody (res : Response) : Except PyErr String :=
  match res.body with
  | none => .error .jsonDecodeError
  | some data =>
    if res.status_code = 200 then successLine data else errorLine data

/-- The whole script. It reads neither the command-line arguments nor the
environment; requests.get(url) happens first and its failure crashes the
run; otherwise the computed line is printed and the script exits cleanly,
or the first exception of the body propagates. -/
def qod (args : List String) (env : List (String × String))
    (net : NetOutcome) : Outcome :=
  match net with
  | .fail => ⟨[.httpGet url], some .networkError⟩
  | .ok res =>
    match runBody res with
    | .ok line => ⟨[.httpGet url, .printLine line], none⟩
    | .error e => ⟨[.httpGet url], some e⟩

/-- The URLs of the outbound HTTP requests of a run, in order. -/
def httpRequests (o : Outcome) : List String :=
  o.events.filterMap fun e =>
    match e with
    | .httpGet u => some u
    | .printLine _ => none

/-- The lines printed to stdout by a run, in order, without the trailing
newline each print appends. -/
def printedLines (o : Outcome) : List String :=
  o.events.filterMap fun e =>
    match e with
    | .httpGet _ => none
    | .printLine s => some s

/-- The text a list of printed lines puts on stdout: each line followed
by the newline print appends. -/
def linesText : List String → String
  | [] => ""
  | [s] => s ++ "\n"
  | s :: rest => s ++ "\n" ++ linesText rest

/-- Everything written to stdout: each printed line followed by a newline. -/
def stdoutOf (o : Outcome) : String :=
  linesText (printedLines o)

/-- Bind on a successful Except result runs the continuation. -/
theorem except_bind_ok {α β : Type} (a : α) (f : α → Except PyErr β) :
    (Except.ok a : Except PyErr α).bind f = f a := rfl

/-- The script on a delivered response, unfolded past the network match. -/
theorem qod_ok_eq (args : List String) (env : List (String × String))
    (res : Response) :
    qod args env (.ok res) =
      (match runBody res with
       | .ok line => ⟨[.httpGet url, .printLine line], none⟩
       | .error e => ⟨[.httpGet url], some e⟩ : Outcome) := rfl

/-- The process exit code: 0 on clean completion, 1 on an unhandled
exception. -/
def exitCode (o : Outcome) : Nat :=
  match o.crash with
  | none => 0
  | some _ => 1

/-- C1: for every HTTP response with status code exactly 200 whose JSON
body contains contents.quotes with a first element having string fields
quote and author, the program prints exactly one line consisting of the
quote text, the separator " - ", and the author, styled green, and the
process exits 0. -/
theorem c1_success_prints_green_quote (args : List String)
    (env : List (String × String)) (res : Response) (j q0 : Json)
    (q a : String)
    (hb : res.body = some j) (hs : res.status_code = 200)
    (hq0 : (((j.getKey "contents").bind (fun c => c.getKey "quotes")).bind
      Json.get0) = .ok q0)
    (hq : q0.getKey "quote" = .ok (.str q))
    (ha : q0.getKey "author" = .ok (.str a)) :
    printedLines (qod args env (.ok res)) = [pyfancyGreen (q ++ " - " ++ a)] ∧
    exitCode (qod args env (.ok res)) = 0 := by
  have hsl : successLine j = .ok (pyfancyGreen (q ++ " - " ++ a)) := by
    simp only [successLine, hq0, hq, ha, Json.asStr, except_bind_ok]
  have hrb : runBody res = .ok (pyfancyGreen (q ++ " - " ++ a)) := by
    simp [runBody, hb, hs, hsl]
  simp [qod, hrb, printedLines, exitCode]

/-- Witness for C1 at the mocked response of the spec. -/
theorem c1_success_prints_green_quote_witness :
    printedLines (qod [] [] (.ok ⟨200, some (.obj [("contents", .obj
      [("quotes", .arr [.obj [("quote", .str "Be yourself"),
        ("author", .str "Oscar Wilde")]])])]), []⟩)) =
      [pyfancyGreen ("Be yourself" ++ " - " ++ "Oscar Wilde")] ∧
    exitCode (qod [] [] (.ok ⟨200, some (.obj [("contents", .obj
      [("quotes", .arr [.obj [("quote", .str "Be yourself"),
        ("author", .str "Oscar Wilde")]])])]), []⟩)) = 0 :=
  c1_success_prints_green_quote [] [] _
    (.obj [("contents", .obj [("quotes", .arr [.obj
      [("quote", .str "Be yourself"), ("author", .str "Oscar Wilde")]])])])
    (.obj [("quote", .str "Be yourself"), ("author", .str "Oscar Wilde")])
    "Be yourself" "Oscar Wilde" rfl rfl rfl rfl rfl

/-- C2: for every HTTP response whose status code is not 200 and whose
JSON body contains an error object with a string field message, the
program prints exactly that message string, styled red, and the process
exits 0. -/
theorem c2_error_prints_red_message (args : List String)
    (env : List (String × String)) (res : Response) (j : Json) (m : String)
    (hb : res.body = some j) (hs : res.status_code ≠ 200)
    (hm : (j.getKey "error").bind (fun e => e.getKey "message") =
      .ok (.str m)) :
    printedLines (qod args env (.ok res)) = [pyfancyRed m] ∧
    exitCode (qod args env (.ok res)) = 0 := by
  have hel : errorLine j = .ok (pyfancyRed m) := by
    simp only [errorLine, hm, Json.asStr, except_bind_ok]
  have hrb : runBody res = .ok (pyfancyRed m) := by
    simp [runBody, hb, hs, hel]
  simp [qod, hrb, printedLines, exitCode]

/-- Witness for C2 at the mocked 500 response of the spec. -/
theorem c2_error_prints_red_message_witness :
    printedLines (qod [] [] (.ok ⟨500, some (.obj [("error", .obj
      [("message", .str "Service unavailable")])]), []⟩)) =
      [pyfancyRed "Service unavailable"] ∧
    exitCode (qod [] [] (.ok ⟨500, some (.obj [("error", .obj
      [("message", .str "Service unavailable")])]), []⟩)) = 0 :=
  c2_error_prints_red_message [] [] _
    (.obj [("error", .obj [("message", .str "Service unavailable")])])
    "Service unavailable" rfl (by decide) rfl

/-- C3: for every HTTP response with status code 200 whose JSON body is
an object lacking the contents field, or more generally whose body makes
a success-branch field access hit a missing key, the program raises an
unhandled lookup error and terminates without printing anything. -/
theorem c3_missing_contents_crashes (args : List String)
    (env : List (String × String)) (res : Response)
    (kvs : List (String × Json))
    (hs : res.status_code = 200) (hb : res.body = some (.obj kvs))
    (h : lookupKey kvs "contents" = none ∨
      ∃ k, successLine (.obj kvs) = .error (.keyError k)) :
    (∃ k, (qod args env (.ok res)).crash = some (.keyError k)) ∧
    printedLines (qod args env (.ok res)) = [] ∧
    stdoutOf (qod args env (.ok res)) = "" := by
  have hsl : ∃ k, successLine (Json.obj kvs) = .error (.keyError k) := by
    rcases h with h | h
    · exact ⟨"contents", by simp [successLine, Json.getKey, h, Except.bind]⟩
    · exact h
  rcases hsl with ⟨k, hk⟩
  have hrb : runBody res = .error (.keyError k) := by
    simp [runBody, hb, hs, hk]
  refine ⟨⟨k, ?_⟩, ?_, ?_⟩ <;>
    simp [qod, hrb, printedLines, stdoutOf, linesText]

/-- Witness for C3: a 200 response whose body is an empty JSON object. -/
theorem c3_missing_contents_crashes_witness :
    (∃ k, (qod [] [] (.ok ⟨200, some (.obj []), []⟩)).crash =
      some (.keyError k)) ∧
    printedLines (qod [] [] (.ok ⟨200, some (.obj []), []⟩)) = [] ∧
    stdoutOf (qod [] [] (.ok ⟨200, some (.obj []), []⟩)) = "" :=
  c3_missing_contents_crashes [] [] _ [] rfl rfl (Or.inl rfl)

/-- C4: the body is parsed as JSON before the status-code branch, so an
invalid-JSON body crashes the run with a parse error on any status code,
with nothing printed. -/
theorem c4_invalid_json_crashes_before_branch (args : List String)
    (env : List (String × String)) (res : Response)
    (hb : res.body = none) :
    qod args env (.ok res) = ⟨[.httpGet url], some .jsonDecodeError⟩ ∧
    printedLines (qod args env (.ok res)) = [] ∧
    stdoutOf (qod args env (.ok res)) = "" := by
  have hrb : runBody res = .error .jsonDecodeError := by
    simp [runBody, hb]
  refine ⟨?_, ?_, ?_⟩ <;> simp [qod, hrb, printedLines, stdoutOf, linesText]

/-- Witness for C4 on both paths: status 200 and status 500 with an
unparseable body. -/
theorem c4_invalid_json_crashes_before_branch_witness :
    (qod [] [] (.ok ⟨200, none, []⟩) =
      ⟨[.httpGet url], some .jsonDecodeError⟩ ∧
     printedLines (qod [] [] (.ok ⟨200, none, []⟩)) = [] ∧
     stdoutOf (qod [] [] (.ok ⟨200, none, []⟩)) = "") ∧
    (qod [] [] (.ok ⟨500, none, []⟩) =
      ⟨[.httpGet url], some .jsonDecodeError⟩ ∧
     printedLines (qod [] [] (.ok ⟨500, none, []⟩)) = [] ∧
     stdoutOf (qod [] [] (.ok ⟨500, none, []⟩)) = "") :=
  ⟨c4_invalid_json_crashes_before_branch [] [] _ rfl,
   c4_invalid_json_crashes_before_branch [] [] _ rfl⟩

/-- C5: for every non-200 response whose JSON body is an object without
an error key, or whose error object lacks message, the program raises an
unhandled lookup error and crashes instead of printing a red line. -/
theorem c5_missing_error_key_crashes (args : List String)
    (env : List (String × String)) (res : Response)
    (kvs : List (String × Json))
    (hs : res.status_code ≠ 200) (hb : res.body = some (.obj kvs))
    (h : lookupKey kvs "error" = none ∨
      ∃ ekvs, lookupKey kvs "error" = some (.obj ekvs) ∧
        lookupKey ekvs "message" = none) :
    (∃ k, (qod args env (.ok res)).crash = some (.keyError k)) ∧
    printedLines (qod args env (.ok res)) = [] ∧
    stdoutOf (qod args env (.ok res)) = "" := by
  have hel : ∃ k, errorLine (Json.obj kvs) = .error (.keyError k) := by
    rcases h with h | ⟨ekvs, he, hm⟩
    · exact ⟨"error", by simp [errorLine, Json.getKey, h, Except.bind]⟩
    · exact ⟨"message", by simp [errorLine, Json.getKey, he, hm, Except.bind]⟩
  rcases hel with ⟨k, hk⟩
  have hrb : runBody res = .error (.keyError k) := by
    simp [runBody, hb, hs, hk]
  refine ⟨⟨k, ?_⟩, ?_, ?_⟩ <;>
    simp [qod, hrb, printedLines, stdoutOf, linesText]

/-- Witness for C5: a 404 response whose body is an empty JSON object. -/
theorem c5_missing_error_key_crashes_witness :
    (∃ k, (qod [] [] (.ok ⟨404, some (.obj []), []⟩)).crash =
      some (.keyError k)) ∧
    printedLines (qod [] [] (.ok ⟨404, some (.obj []), []⟩)) = [] ∧
    stdoutOf (qod [] [] (.ok ⟨404, some (.obj []), []⟩)) = "" :=
  c5_missing_error_key_crashes [] [] _ [] (by decide) rfl (Or.inl rfl)

/-- C6: when the HTTP GET itself fails, the run crashes with a network
error, having issued the request but printed nothing. -/
theorem c6_network_failure_crashes (args : List String)
    (env : List (String × String)) :
    qod args env .fail = ⟨[.httpGet url], some .networkError⟩ ∧
    printedLines (qod args env .fail) = [] ∧
    stdoutOf (qod args env .fail) = "" ∧
    exitCode (qod args env .fail) = 1 := by
  refine ⟨rfl, ?_, ?_, ?_⟩ <;>
    simp [qod, printedLines, stdoutOf, linesText, exitCode]

/-- C7: every invocation issues exactly one outbound HTTP GET request,
always to the fixed literal URL, and never a second one. -/
theorem c7_exactly_one_request (args : List String)
    (env : List (String × String)) (net : NetOutcome) :
    httpRequests (qod args env net) = [url] := by
  cases net with
  | fail => rfl
  | ok res => cases h : runBody res <;> simp [qod, h, httpRequests]

/-- C8: on every run that completes cleanly, that is on the two handled
paths, stdout receives exactly one newline-terminated line. -/
theorem c8_handled_paths_print_one_line (args : List String)
    (env : List (String × String)) (net : NetOutcome)
    (h : (qod args env net).crash = none) :
    ∃ s, printedLines (qod args env net) = [s] ∧
      stdoutOf (qod args env net) = s ++ "\n" := by
  cases net with
  | fail => simp [qod] at h
  | ok res =>
    cases hr : runBody res with
    | ok line =>
      exact ⟨line, by simp [qod, hr, printedLines, stdoutOf, linesText]⟩
    | error e => simp [qod, hr] at h

/-- Witness for C8 at a clean error-branch run. -/
theorem c8_handled_paths_print_one_line_witness :
    ∃ s, printedLines (qod [] [] (.ok ⟨500, some (.obj [("error", .obj
      [("message", .str "Service unavailable")])]), []⟩)) = [s] ∧
    stdoutOf (qod [] [] (.ok ⟨500, some (.obj [("error", .obj
      [("message", .str "Service unavailable")])]), []⟩)) = s ++ "\n" :=
  c8_handled_paths_print_one_line [] [] _ rfl

/-- C9: a 200 response whose quotes array is present but empty crashes
with an unhandled index error at the access of element 0 and prints
nothing. -/
theorem c9_empty_quotes_index_error :
    qod [] [] (.ok ⟨200, some (.obj [("contents", .obj
      [("quotes", .arr [])])]), []⟩) =
      ⟨[.httpGet url], some .indexError⟩ ∧
    printedLines (qod [] [] (.ok ⟨200, some (.obj [("contents", .obj
      [("quotes", .arr [])])]), []⟩)) = [] ∧
    stdoutOf (qod [] [] (.ok ⟨200, some (.obj [("contents", .obj
      [("quotes", .arr [])])]), []⟩)) = "" := by
  refine ⟨rfl, rfl, rfl⟩

/-- C10: the output is a function of the HTTP status code and body alone:
two runs with equal status and equal body write identical text to stdout,
whatever the command-line arguments, environment, or response headers. -/
theorem c10_deterministic_in_status_and_body (a1 a2 : List String)
    (e1 e2 : List (String × String)) (r1 r2 : Response)
    (hs : r1.status_code = r2.status_code) (hb : r1.body = r2.body) :
    stdoutOf (qod a1 e1 (.ok r1)) = stdoutOf (qod a2 e2 (.ok r2)) ∧
    qod a1 e1 (.ok r1) = qod a2 e2 (.ok r2) := by
  have hrb : runBody r1 = runBody r2 := by
    unfold runBody
    rw [hs, hb]
  have hq : qod a1 e1 (.ok r1) = qod a2 e2 (.ok r2) := by
    rw [qod_ok_eq, qod_ok_eq, hrb]
  exact ⟨by rw [hq], hq⟩

/-- Witness for C10: same status and body, different arguments,
environment and headers. -/
theorem c10_deterministic_in_status_and_body_witness :
    stdoutOf (qod ["a"] [("HOME", "/x")] (.ok ⟨200, some (.obj []),
      [("X", "1")]⟩)) =
    stdoutOf (qod [] [] (.ok ⟨200, some (.obj []), [("Y", "2")]⟩)) ∧
    qod ["a"] [("HOME", "/x")] (.ok ⟨200, some (.obj []), [("X", "1")]⟩) =
    qod [] [] (.ok ⟨200, some (.obj []), [("Y", "2")]⟩) :=
  c10_deterministic_in_status_and_body ["a"] [] [("HOME", "/x")] [] _ _
    rfl rfl
